import Mathlib

/-!
Shallow embedding of the logging engine in src/log.go
(package log of cjburchell/yasls-client-go).

External collaborators are modelled as explicit parameters:
  - json.Marshal          -> a parameter marshal : Message → Except String String
                             (a concrete total instance jsonMarshal is provided);
  - time.Unix(..).Format  -> a parameter fmtTime : Int → String (takes the seconds);
  - trace.GetStack        -> a parameter getStack : Nat → String;
  - publishers.Publisher  -> a function String → Option String (some e = failure);
  - os.Hostname           -> a String parameter of Create.
A Go nil slice is modelled as none, a non-nil slice as some list.
The mutable package-level variable named settings is modelled by explicit
state passing: printLog takes the current value gs of that variable, and
settingsVar below is the value the variable holds for the whole process
lifetime (nothing in the package ever assigns to it).
-/

namespace Log

/-- Level of the log (src/log.go lines 18-24): text and integer severity. -/
structure Level where
  Text : String
  Severity : Int
deriving DecidableEq, Repr

/-- DEBUG log level (severity 0). -/
def DEBUG : Level := { Text := "Debug", Severity := 0 }

/-- INFO log level (severity 1). -/
def INFO : Level := { Text := "Info", Severity := 1 }

/-- WARNING log level (severity 2). -/
def WARNING : Level := { Text := "Warning", Severity := 2 }

/-- ERROR log level (severity 3). -/
def ERROR : Level := { Text := "Error", Severity := 3 }

/-- FATAL log level (severity 4). -/
def FATAL : Level := { Text := "Fatal", Severity := 4 }

/-- Settings for sending logs (src/log.go lines 218-223). -/
structure Settings where
  ServiceName : String
  MinLogLevel : Level
  LogToConsole : Bool
deriving DecidableEq, Repr

/-- A publisher capability (publishers.Publisher, external): publish the
serialized bytes, return some error message on failure, none on success. -/
def Publisher : Type := String → Option String

/-- The logger struct (src/log.go lines 59-63).  publishers = none models a
Go nil slice, some l a non-nil slice with elements l. -/
structure Logger where
  publishers : Option (List Publisher)
  settings : Settings
  hostname : String

/-- The package-level settings variable with its initializer
(src/log.go lines 65-68).  No code in the package ever assigns to it, so it
holds this value for the whole process lifetime. -/
def settingsVar : Settings :=
  { ServiceName := "", MinLogLevel := DEBUG, LogToConsole := true }

/-- Message to be sent to the centralized logger (src/log.go lines 225-232). -/
structure Message where
  Text : String
  Level : Level
  ServiceName : String
  Time : Int
  Hostname : String
deriving DecidableEq, Repr

/-- Message.String (src/log.go lines 234-236):
fmt.Sprintf("[%s] %s %s - %s", level text, formatted time, service, text).
fmtTime models (time.Unix sec 0).Format "2006-01-02 15:04:05 MST" as a
function of the seconds value.  Go int64 division truncates toward zero,
so message.Time/1000 is embedded as Int.tdiv (truncating division), not as
the flooring Int division. -/
def Message.String (message : Message) (fmtTime : Int → String) : String :=
  "[" ++ message.Level.Text ++ "] " ++ fmtTime (message.Time.tdiv 1000) ++ " "
    ++ message.ServiceName ++ " - " ++ message.Text

/-- strings.HasSuffix(s, "\n"): a UTF-8 encoded string ends in the byte 0x0A
iff its last character is the newline character. -/
def hasSuffixNL (s : String) : Bool :=
  s.data.getLast? == some '\n'

/-- The observable effects of one printLog call. -/
structure DispatchResult where
  /-- What the gated console write produced (none when the gate failed). -/
  console : Option String
  /-- The result of json.Marshal, when reached (none when skipped). -/
  serialized : Option (Except String String)
  /-- Locally reported error lines (marshal error line, publisher error lines). -/
  localErrors : List String
  /-- The bytes handed to each invoked publisher, in attempt order. -/
  attempts : List String
  /-- The value each invoked publisher returned, in attempt order. -/
  results : List (Option String)
deriving Repr

/-- The publisher loop of printLog (src/log.go lines 264-269), one iteration
per publisher in list order: call Publish with the marshalled bytes, on a
non-nil error print the local diagnostic line and keep going. -/
def fanOut (messageBites : String) (rendered : String) :
    List Publisher → List String × List String × List (Option String)
  | [] => ([], [], [])
  | publisher :: rest =>
    let err := publisher messageBites
    let tail := fanOut messageBites rendered rest
    (messageBites :: tail.1,
     (match err with
      | some e => ["Unable to send log to publisher (" ++ e ++ "): " ++ rendered]
      | none => []) ++ tail.2.1,
     err :: tail.2.2)

/-- The Message built at the top of printLog (src/log.go lines 239-245).
Note: ServiceName comes from the package-level settings variable (whose
current value is gs), not from l.settings; Time is UnixNano()/1000000,
with Go's truncating int64 division embedded as Int.tdiv. -/
def buildMessage (gs : Settings) (l : Logger) (nowNanos : Int)
    (text : String) (level : Level) : Message :=
  { Text := text
    Level := level
    ServiceName := gs.ServiceName
    Time := nowNanos.tdiv 1000000
    Hostname := l.hostname }

/-- printLog (src/log.go lines 238-271).  gs is the current value of the
package-level settings variable; marshal models json.Marshal; nowNanos
models time.Now().UnixNano().  Console: if level.Severity >=
settings.MinLogLevel.Severity && settings.LogToConsole, fmt.Print the
rendered string when it already ends in a newline, else fmt.Println it.
Then: return early when the publisher slice is nil; otherwise marshal
(printing "error:", err locally on failure and keeping the nil = empty
byte slice) and run the publisher loop. -/
def printLog (gs : Settings) (l : Logger) (marshal : Message → Except String String)
    (fmtTime : Int → String) (nowNanos : Int) (text : String) (level : Level) :
    DispatchResult :=
  let message := buildMessage gs l nowNanos text level
  let console : Option String :=
    if gs.MinLogLevel.Severity ≤ level.Severity ∧ gs.LogToConsole = true then
      some (if hasSuffixNL (message.String fmtTime) then message.String fmtTime
            else message.String fmtTime ++ "\n")
    else none
  match l.publishers with
  | none =>
    { console := console, serialized := none, localErrors := [],
      attempts := [], results := [] }
  | some pubs =>
    let mres := marshal message
    let marshalErrs := match mres with
      | .error e => ["error: " ++ e]
      | .ok _ => []
    let messageBites := match mres with
      | .ok b => b
      | .error _ => ""
    let fanned := fanOut messageBites (message.String fmtTime) pubs
    { console := console, serialized := some mres,
      localErrors := marshalErrs ++ fanned.2.1,
      attempts := fanned.1, results := fanned.2.2 }

/-- An error value as printErrorLog sees it (src/log.go lines 157-159):
message models err.Error(); stackTrace = some frames iff the dynamic type
implements stackTracer, with each frame already rendered by fmt.Sprintf
with the plus-v verb. -/
structure GoError where
  message : String
  stackTrace : Option (List String)

/-- The stack-trace banner line appended before reused trace frames
(src/log.go line 174): "Stack Trace " plus 89 dashes plus newline. -/
def stackBanner : String :=
  "Stack Trace " ++ String.mk (List.replicate 89 '-') ++ "\n"

/-- The trailing separator after reused trace frames (src/log.go line 178):
101 dashes, no trailing newline. -/
def stackTrailer : String :=
  String.mk (List.replicate 101 '-')

/-- printErrorLog (src/log.go lines 161-184).  getStack models
trace.GetStack as a function of the skip count; the source calls it with 2
to skip the enricher frames. -/
def printErrorLog (gs : Settings) (l : Logger)
    (marshal : Message → Except String String) (fmtTime : Int → String)
    (getStack : Nat → String) (nowNanos : Int)
    (err : Option GoError) (msg : String) (level : Level) : DispatchResult :=
  match err with
  | none => printLog gs l marshal fmtTime nowNanos msg level
  | some e =>
    let msg := if msg = "" then "Error: " ++ e.message ++ "\n"
               else msg ++ "\nError: " ++ e.message ++ "\n"
    let msg := match e.stackTrace with
      | some frames =>
        msg ++ stackBanner ++ String.join (frames.map (fun f => f ++ "\n"))
          ++ stackTrailer
      | none => msg ++ getStack 2
    printLog gs l marshal fmtTime nowNanos msg level

/-- The outcome of one public logging call: either it returns normally or
it ends in a panic carrying a payload, in both cases after producing the
dispatch effects. -/
inductive CallOutcome where
  | normal (result : DispatchResult)
  | panicked (result : DispatchResult) (payload : String)

/-- Whether a call returned normally to its caller. -/
def CallOutcome.isNormal : CallOutcome → Bool
  | .normal _ => true
  | .panicked _ _ => false

/-- Warn (src/log.go lines 142-145); msg models fmt.Sprint(v...). -/
def Logger.Warn (l : Logger) (gs : Settings)
    (marshal : Message → Except String String) (fmtTime : Int → String)
    (nowNanos : Int) (msg : String) : CallOutcome :=
  .normal (printLog gs l marshal fmtTime nowNanos msg WARNING)

/-- Debug (src/log.go lines 198-201); msg models fmt.Sprint(v...). -/
def Logger.Debug (l : Logger) (gs : Settings)
    (marshal : Message → Except String String) (fmtTime : Int → String)
    (nowNanos : Int) (msg : String) : CallOutcome :=
  .normal (printLog gs l marshal fmtTime nowNanos msg DEBUG)

/-- Print (src/log.go lines 208-211); msg models fmt.Sprint(v...). -/
def Logger.Print (l : Logger) (gs : Settings)
    (marshal : Message → Except String String) (fmtTime : Int → String)
    (nowNanos : Int) (msg : String) : CallOutcome :=
  .normal (printLog gs l marshal fmtTime nowNanos msg INFO)

/-- Error (src/log.go lines 147-150); msg models fmt.Sprint(v...). -/
def Logger.Error (l : Logger) (gs : Settings)
    (marshal : Message → Except String String) (fmtTime : Int → String)
    (getStack : Nat → String) (nowNanos : Int)
    (err : Option GoError) (msg : String) : CallOutcome :=
  .normal (printErrorLog gs l marshal fmtTime getStack nowNanos err msg ERROR)

/-- Fatal (src/log.go lines 186-190): printErrorLog at FATAL, then
log.Panic(v...), whose panic payload is fmt.Sprint(v...) = msg. -/
def Logger.Fatal (l : Logger) (gs : Settings)
    (marshal : Message → Except String String) (fmtTime : Int → String)
    (getStack : Nat → String) (nowNanos : Int)
    (err : Option GoError) (msg : String) : CallOutcome :=
  .panicked (printErrorLog gs l marshal fmtTime getStack nowNanos err msg FATAL) msg

/-- Fatalf (src/log.go lines 192-196): printErrorLog at FATAL with the
formatted string, then log.Panicf with the same format and arguments, so
the panic payload equals that formatted string msg. -/
def Logger.Fatalf (l : Logger) (gs : Settings)
    (marshal : Message → Except String String) (fmtTime : Int → String)
    (getStack : Nat → String) (nowNanos : Int)
    (err : Option GoError) (msg : String) : CallOutcome :=
  .panicked (printErrorLog gs l marshal fmtTime getStack nowNanos err msg FATAL) msg

/-- Log Writer (src/log.go lines 277-281). -/
structure Writer where
  Level : Level
  logger : Logger

/-- GetWriter (src/log.go lines 273-275). -/
def Logger.GetWriter (l : Logger) (level : Level) : Writer :=
  { Level := level, logger := l }

/-- Go string(p) for a byte slice p: the bytes reinterpreted as text. -/
def goStringOfBytes (p : List Nat) : String :=
  String.mk (p.map Char.ofNat)

/-- Writer.Write (src/log.go lines 283-286): dispatch the whole buffer as
text at the bound level, then return (len(p), nil) unconditionally. -/
def Writer.Write (w : Writer) (gs : Settings)
    (marshal : Message → Except String String) (fmtTime : Int → String)
    (nowNanos : Int) (p : List Nat) : DispatchResult × Nat × Option String :=
  (printLog gs w.logger marshal fmtTime nowNanos (goStringOfBytes p) w.Level,
   p.length, none)

/-- GetLogLevel (src/log.go lines 119-135): first level whose Text matches,
falling back to INFO. -/
def GetLogLevel (levelText : String) : Level :=
  let levels := [DEBUG, INFO, WARNING, ERROR, FATAL]
  match levels.find? (fun lvl => lvl.Text == levelText) with
  | some lvl => lvl
  | none => INFO

/-- The settings interface (src/log.go lines 54-57), a record of lookups. -/
structure ISettings where
  Get : String → String → String
  GetBool : String → Bool → Bool

/-- createSettings (src/log.go lines 70-76). -/
def createSettings (s : ISettings) : Settings :=
  { ServiceName := s.Get "LOG_SERVICE_NAME" ""
    MinLogLevel := GetLogLevel (s.Get "LOG_LEVEL" INFO.Text)
    LogToConsole := s.GetBool "LOG_CONSOLE" true }

/-- publishers.HTTPSettings (external structure filled by createHTTPSettings). -/
structure HTTPSettings where
  Address : String
  Token : String

/-- publishers.NatsSettings (external structure filled by createNatsSettings). -/
structure NatsSettings where
  URL : String
  Token : String
  User : String
  Password : String

/-- createHTTPSettings (src/log.go lines 78-83). -/
def createHTTPSettings (s : ISettings) : HTTPSettings :=
  { Address := s.Get "LOG_REST_URL" "http://logger:8082/log"
    Token := s.Get "LOG_REST_TOKEN" "token" }

/-- createNatsSettings (src/log.go lines 85-92). -/
def createNatsSettings (s : ISettings) : NatsSettings :=
  { URL := s.Get "LOG_NATS_URL" "tcp://nats:4222"
    Token := s.Get "LOG_NATS_TOKEN" "token"
    User := s.Get "LOG_NATS_USER" "admin"
    Password := s.Get "LOG_NATS_PASSWORD" "password" }

/-- Create (src/log.go lines 94-117).  setupNats and setupHTTP model
publishers.SetupNats and publishers.SetupHTTP; hostname models
os.Hostname().  The publisher slice starts as make(..., 0), a non-nil
empty slice, so the result's publishers field is always some list. -/
def Create (setupNats : NatsSettings → Publisher)
    (setupHTTP : HTTPSettings → Publisher) (hostname : String)
    (s : ISettings) : Logger :=
  let newPublishers : List Publisher := []
  let newPublishers :=
    if s.GetBool "LOG_USE_NATS" true
    then newPublishers ++ [setupNats (createNatsSettings s)]
    else newPublishers
  let newPublishers :=
    if s.GetBool "LOG_USE_REST" false
    then newPublishers ++ [setupHTTP (createHTTPSettings s)]
    else newPublishers
  { settings := createSettings s
    hostname := hostname
    publishers := some newPublishers }

/-- A JSON escape for one character, enough to make jsonMarshal total. -/
def escapeJSONChar (c : Char) : String :=
  if c = '"' then "\\\""
  else if c = '\\' then "\\\\"
  else if c = '\n' then "\\n"
  else String.singleton c

/-- JSON string-body escaping. -/
def escapeJSON (s : String) : String :=
  String.join (s.data.map escapeJSONChar)

/-- A concrete total model of json.Marshal on Message: Go produces the
fields in struct order with the tagged names (the nested Level struct has
no tags, so its fields keep their Go names), and never fails on this
struct type. -/
def jsonMarshal (m : Message) : Except String String :=
  .ok ("\x7b\"text\":\"" ++ escapeJSON m.Text
    ++ "\",\"level\":\x7b\"Text\":\"" ++ escapeJSON m.Level.Text
    ++ "\",\"Severity\":" ++ toString m.Level.Severity
    ++ "\x7d,\"serviceName\":\"" ++ escapeJSON m.ServiceName
    ++ "\",\"time\":" ++ toString m.Time
    ++ ",\"hostname\":\"" ++ escapeJSON m.Hostname ++ "\"\x7d")

/-- Number of trailing newline characters of a string. -/
def trailingNewlines (s : String) : Nat :=
  (s.data.reverse.takeWhile (fun c => c == '\n')).length

end Log

namespace Log

/-! ### Helper lemmas -/

lemma trailingNewlines_append_newline (s : String) :
    trailingNewlines (s ++ "\n") = trailingNewlines s + 1 := by
  unfold trailingNewlines
  rw [String.data_append]
  simp [List.takeWhile_cons]

lemma trailingNewlines_eq_zero (s : String) (h : hasSuffixNL s = false) :
    trailingNewlines s = 0 := by
  unfold hasSuffixNL at h
  unfold trailingNewlines
  rw [← List.head?_reverse] at h
  cases hrev : s.data.reverse with
  | nil => simp
  | cons c cs =>
    rw [hrev] at h
    simp only [List.head?_cons, beq_eq_false_iff_ne, ne_eq, Option.some.injEq] at h
    simp [List.takeWhile_cons, h]

lemma trailingNewlines_pos (s : String) (h : hasSuffixNL s = true) :
    1 ≤ trailingNewlines s := by
  unfold hasSuffixNL at h
  unfold trailingNewlines
  rw [← List.head?_reverse] at h
  cases hrev : s.data.reverse with
  | nil => rw [hrev] at h; simp at h
  | cons c cs =>
    rw [hrev] at h
    simp only [List.head?_cons, beq_iff_eq, Option.some.injEq] at h
    simp [List.takeWhile_cons, h]

lemma fanOut_spec (b r : String) (pubs : List Publisher) :
    fanOut b r pubs =
      (pubs.map (fun _ => b),
       pubs.filterMap (fun p => (p b).map (fun e =>
         "Unable to send log to publisher (" ++ e ++ "): " ++ r)),
       pubs.map (fun p => p b)) := by
  induction pubs with
  | nil => rfl
  | cons p rest ih =>
    simp only [fanOut, ih, List.map_cons, List.filterMap_cons]
    cases hp : p b <;> simp [hp]

end Log

namespace Log

/-! ### Claim theorems -/

/-- C7: the error enricher printErrorLog leaves the text unchanged when the
error is absent; with a present error the logged text begins with
"Error: err.Message\n" when msg is empty and with "msg\nError: err.Message\n"
otherwise, followed by the banner-delimited stack block when the error
exposes a stack trace and by the current stack captured with skip count 2
otherwise. -/
theorem c7_printErrorLog_enrichment (gs : Settings) (l : Logger)
    (marshal : Message → Except String String) (fmtTime : Int → String)
    (getStack : Nat → String) (nowNanos : Int) (msg : String) (level : Level)
    (e : GoError) :
    printErrorLog gs l marshal fmtTime getStack nowNanos none msg level
      = printLog gs l marshal fmtTime nowNanos msg level ∧
    printErrorLog gs l marshal fmtTime getStack nowNanos (some e) msg level
      = printLog gs l marshal fmtTime nowNanos
          ((if msg = "" then "Error: " ++ e.message ++ "\n"
            else msg ++ "\nError: " ++ e.message ++ "\n")
           ++ (match e.stackTrace with
               | some frames =>
                 stackBanner ++ String.join (frames.map (fun f => f ++ "\n"))
                   ++ stackTrailer
               | none => getStack 2)) level := by
  refine ⟨rfl, ?_⟩
  unfold printErrorLog
  cases hst : e.stackTrace with
  | none =>
    by_cases hm : msg = "" <;> simp [hm, hst]
  | some frames =>
    by_cases hm : msg = "" <;> simp [hm, hst, String.append_assoc]

/-- C8: Fatal and Fatalf first perform the full printErrorLog dispatch of
the enriched message at FATAL level and then unconditionally end in a panic
carrying the original (formatted) arguments; neither ever returns normally
to its caller. -/
theorem c8_fatal_dispatch_then_panic (l : Logger) (gs : Settings)
    (marshal : Message → Except String String) (fmtTime : Int → String)
    (getStack : Nat → String) (nowNanos : Int) (err : Option GoError)
    (msg : String) :
    l.Fatal gs marshal fmtTime getStack nowNanos err msg
      = .panicked (printErrorLog gs l marshal fmtTime getStack nowNanos err msg FATAL) msg ∧
    l.Fatalf gs marshal fmtTime getStack nowNanos err msg
      = .panicked (printErrorLog gs l marshal fmtTime getStack nowNanos err msg FATAL) msg ∧
    (l.Fatal gs marshal fmtTime getStack nowNanos err msg).isNormal = false ∧
    (l.Fatalf gs marshal fmtTime getStack nowNanos err msg).isNormal = false :=
  ⟨rfl, rfl, rfl, rfl⟩

/-- C9: for every byte buffer p the Writer adapter converts the whole buffer
to text, dispatches it at the bound level, and returns (p.length, none)
unconditionally, whatever happens inside the dispatch. -/
theorem c9_writer_write_unconditional (w : Writer) (gs : Settings)
    (marshal : Message → Except String String) (fmtTime : Int → String)
    (nowNanos : Int) (p : List Nat) :
    (w.Write gs marshal fmtTime nowNanos p).1
      = printLog gs w.logger marshal fmtTime nowNanos (goStringOfBytes p) w.Level ∧
    (w.Write gs marshal fmtTime nowNanos p).2.1 = p.length ∧
    (w.Write gs marshal fmtTime nowNanos p).2.2 = none :=
  ⟨rfl, rfl, rfl⟩

/-- C10: the rendered console line depends on the Time field only through
Go integer division by 1000 (truncation toward zero, Int.tdiv): two
messages equal in every other field whose Time fields agree after that
division render identically, for every time formatter. -/
theorem c10_console_time_seconds (fmtTime : Int → String) (m1 m2 : Message)
    (ht : m1.Text = m2.Text) (hl : m1.Level = m2.Level)
    (hs : m1.ServiceName = m2.ServiceName) (_hh : m1.Hostname = m2.Hostname)
    (htime : m1.Time.tdiv 1000 = m2.Time.tdiv 1000) :
    m1.String fmtTime = m2.String fmtTime := by
  unfold Message.String
  rw [ht, hl, hs, htime]

/-- Witness for C10 at a concrete input: times -500 and 500 both truncate
to second 0 under Go division (where flooring division would give -1 and
0) and render identically. -/
theorem c10_console_time_seconds_witness :
    (-500 : Int).tdiv 1000 = (500 : Int).tdiv 1000 ∧
    Message.String
      { Text := "t", Level := INFO, ServiceName := "s", Time := -500, Hostname := "h" }
      toString
      = Message.String
          { Text := "t", Level := INFO, ServiceName := "s", Time := 500, Hostname := "h" }
          toString :=
  ⟨by decide, c10_console_time_seconds toString _ _ rfl rfl rfl rfl (by decide)⟩

end Log

namespace Log

/-- A publisher that always succeeds, for concrete runs. -/
def pubOK : Publisher := fun _ => none

/-- A publisher that always fails with the error text down. -/
def pubFail : Publisher := fun _ => some "down"

/-- A constant time formatter, for concrete runs. -/
def fmtT : Int → String := fun _ => "T"

/-- A marshaller that always yields the bytes B, for concrete runs. -/
def marshalOKB : Message → Except String String := fun _ => .ok "B"

/-- C2: console output is produced iff the severity gate and the console
flag both pass, while the publisher fan-out is attempted regardless: under
a non-nil publisher list a gated-out call still serializes the Message and
attempts every configured publisher. -/
theorem c2_console_gate_fanout_independent (gs : Settings) (l : Logger)
    (marshal : Message → Except String String) (fmtTime : Int → String)
    (nowNanos : Int) (text : String) (level : Level) (pubs : List Publisher)
    (hp : l.publishers = some pubs) :
    ((printLog gs l marshal fmtTime nowNanos text level).console.isSome = true
      ↔ (gs.MinLogLevel.Severity ≤ level.Severity ∧ gs.LogToConsole = true)) ∧
    (level.Severity < gs.MinLogLevel.Severity →
      (printLog gs l marshal fmtTime nowNanos text level).console = none) ∧
    (printLog gs l marshal fmtTime nowNanos text level).serialized
      = some (marshal (buildMessage gs l nowNanos text level)) ∧
    (printLog gs l marshal fmtTime nowNanos text level).attempts.length
      = pubs.length := by
  refine ⟨?_, ?_, ?_, ?_⟩
  · by_cases hc : gs.MinLogLevel.Severity ≤ level.Severity ∧ gs.LogToConsole = true <;>
      simp [printLog, hp, hc]
  · intro hlt
    have hc : ¬(gs.MinLogLevel.Severity ≤ level.Severity ∧ gs.LogToConsole = true) :=
      fun hcc => absurd hcc.1 (not_le.mpr hlt)
    simp [printLog, hp, hc]
  · simp [printLog, hp]
  · simp [printLog, hp, fanOut_spec]

/-- The settings value used in the C2 witness: minimum level Warning,
console on. -/
def gsWarn : Settings :=
  { ServiceName := "svc", MinLogLevel := WARNING, LogToConsole := true }

/-- The logger used in the C2 witness: one succeeding publisher. -/
def loggerC2 : Logger :=
  { publishers := some [pubOK], settings := gsWarn, hostname := "h1" }

/-- Witness for C2: a Debug call under minimum level Warning prints nothing
to the console yet still attempts the one configured publisher. -/
theorem c2_console_gate_fanout_independent_witness :
    DEBUG.Severity < gsWarn.MinLogLevel.Severity ∧
    (printLog gsWarn loggerC2 marshalOKB fmtT 0 "tick" DEBUG).console = none ∧
    (printLog gsWarn loggerC2 marshalOKB fmtT 0 "tick" DEBUG).attempts.length = 1 := by
  have h := c2_console_gate_fanout_independent gsWarn loggerC2 marshalOKB fmtT 0
    "tick" DEBUG [pubOK] rfl
  exact ⟨by decide, h.2.1 (by decide), h.2.2.2⟩

/-- C6: with a non-nil publisher list and a successful serialization, the
publishers are attempted sequentially in list order, each with the
serialized bytes; a failing publisher only adds a locally reported line and
never prevents the attempt on any later publisher. -/
theorem c6_publisher_failure_isolated (gs : Settings) (l : Logger)
    (marshal : Message → Except String String) (fmtTime : Int → String)
    (nowNanos : Int) (text : String) (level : Level) (pubs : List Publisher)
    (bytes : String)
    (hp : l.publishers = some pubs)
    (hm : marshal (buildMessage gs l nowNanos text level) = .ok bytes) :
    (printLog gs l marshal fmtTime nowNanos text level).attempts
      = pubs.map (fun _ => bytes) ∧
    (printLog gs l marshal fmtTime nowNanos text level).results
      = pubs.map (fun p => p bytes) ∧
    (printLog gs l marshal fmtTime nowNanos text level).localErrors
      = pubs.filterMap (fun p => (p bytes).map (fun e =>
          "Unable to send log to publisher (" ++ e ++ "): "
            ++ Message.String (buildMessage gs l nowNanos text level) fmtTime)) := by
  refine ⟨?_, ?_, ?_⟩ <;> simp [printLog, hp, hm, fanOut_spec]

/-- The logger used in the C6 witness: a failing publisher followed by a
succeeding one. -/
def loggerC6 : Logger :=
  { publishers := some [pubFail, pubOK], settings := settingsVar, hostname := "h" }

/-- Witness for C6: the always-failing first publisher does not prevent the
attempt on the succeeding second one in the same dispatch. -/
theorem c6_publisher_failure_isolated_witness :
    (printLog settingsVar loggerC6 marshalOKB fmtT 0 "m" INFO).results
      = [some "down", none] ∧
    (printLog settingsVar loggerC6 marshalOKB fmtT 0 "m" INFO).attempts
      = ["B", "B"] := by
  have h := c6_publisher_failure_isolated settingsVar loggerC6 marshalOKB fmtT 0
    "m" INFO [pubFail, pubOK] "B" rfl rfl
  exact ⟨h.2.1, h.1⟩

/-- C3 (amended): when serialization fails the error is reported locally and
dispatch is not aborted, but the fan-out is NOT skipped: every configured
publisher is still invoked, with the nil (empty) byte slice left by the
failed marshal. -/
theorem c3_marshal_failure_not_skipped (gs : Settings) (l : Logger)
    (marshal : Message → Except String String) (fmtTime : Int → String)
    (nowNanos : Int) (text : String) (level : Level) (pubs : List Publisher)
    (e : String)
    (hp : l.publishers = some pubs)
    (hm : marshal (buildMessage gs l nowNanos text level) = .error e) :
    (printLog gs l marshal fmtTime nowNanos text level).serialized
      = some (Except.error e) ∧
    (printLog gs l marshal fmtTime nowNanos text level).localErrors.head?
      = some ("error: " ++ e) ∧
    (printLog gs l marshal fmtTime nowNanos text level).attempts
      = pubs.map (fun _ => "") ∧
    (printLog gs l marshal fmtTime nowNanos text level).results
      = pubs.map (fun p => p "") := by
  refine ⟨?_, ?_, ?_, ?_⟩ <;> simp [printLog, hp, hm, fanOut_spec]

/-- A marshaller that always fails, for the C3 counterexample. -/
def failMarshal : Message → Except String String := fun _ => .error "boom"

/-- The logger used in the C3 counterexample: one configured publisher. -/
def loggerC3 : Logger :=
  { publishers := some [pubOK], settings := settingsVar, hostname := "h" }

/-- Counterexample to C3 as stated: at this concrete input serialization
fails, yet the publisher is still invoked (with the empty byte slice), so
fan-out is not skipped. -/
theorem c3_counterexample :
    (printLog settingsVar loggerC3 failMarshal fmtT 0 "x" INFO).serialized
      = some (Except.error "boom") ∧
    (printLog settingsVar loggerC3 failMarshal fmtT 0 "x" INFO).attempts = [""] ∧
    (printLog settingsVar loggerC3 failMarshal fmtT 0 "x" INFO).results = [none] :=
  ⟨rfl, rfl, rfl⟩

/-- Witness for C3 (amended) at a concrete input. -/
theorem c3_marshal_failure_not_skipped_witness :
    (printLog settingsVar loggerC3 failMarshal fmtT 0 "x" INFO).localErrors.head?
      = some ("error: " ++ "boom") ∧
    (printLog settingsVar loggerC3 failMarshal fmtT 0 "x" INFO).attempts
      = [pubOK].map (fun _ => "") := by
  have h := c3_marshal_failure_not_skipped settingsVar loggerC3 failMarshal fmtT 0
    "x" INFO [pubOK] "boom" rfl rfl
  exact ⟨h.2.1, h.2.2.1⟩

/-- C4 (amended): dispatch stops before serialization only when the
publisher list is nil (unset); an empty non-nil list still incurs the
serialization, though no publish is attempted; and Create always returns a
logger whose publisher list is non-nil. -/
theorem c4_nil_stops_empty_does_not (gs : Settings) (l : Logger)
    (marshal : Message → Except String String) (fmtTime : Int → String)
    (nowNanos : Int) (text : String) (level : Level) :
    (l.publishers = none →
      (printLog gs l marshal fmtTime nowNanos text level).serialized = none ∧
      (printLog gs l marshal fmtTime nowNanos text level).attempts = [] ∧
      (printLog gs l marshal fmtTime nowNanos text level).localErrors = []) ∧
    (l.publishers = some [] →
      (printLog gs l marshal fmtTime nowNanos text level).serialized
        = some (marshal (buildMessage gs l nowNanos text level)) ∧
      (printLog gs l marshal fmtTime nowNanos text level).attempts = []) ∧
    (∀ (setupN : NatsSettings → Publisher) (setupH : HTTPSettings → Publisher)
        (hostname : String) (s : ISettings),
      (Create setupN setupH hostname s).publishers.isSome = true) := by
  refine ⟨fun hp => ?_, fun hp => ?_, fun setupN setupH hostname s => ?_⟩
  · refine ⟨?_, ?_, ?_⟩ <;> simp [printLog, hp]
  · refine ⟨?_, ?_⟩ <;> simp [printLog, hp, fanOut]
  · simp [Create]

/-- A settings source whose every boolean lookup is false and whose string
lookups return the fallback, for the C4 counterexample. -/
def envFlagsOff : ISettings :=
  { Get := fun _ fb => fb, GetBool := fun _ _ => false }

/-- Counterexample to C4 as stated: a logger returned by Create with no
publisher-enable flag set holds an empty non-nil list, and a dispatch on it
does serialize the Message. -/
theorem c4_counterexample :
    (Create (fun _ => pubOK) (fun _ => pubOK) "h" envFlagsOff).publishers
      = some [] ∧
    (printLog settingsVar (Create (fun _ => pubOK) (fun _ => pubOK) "h" envFlagsOff)
        jsonMarshal fmtT 0 "x" INFO).serialized.isSome = true :=
  ⟨rfl, rfl⟩

/-- The nil-publishers logger, for concrete runs. -/
def loggerNil : Logger :=
  { publishers := none, settings := settingsVar, hostname := "h" }

/-- The empty-but-non-nil-publishers logger, for concrete runs. -/
def loggerEmpty : Logger :=
  { publishers := some [], settings := settingsVar, hostname := "h" }

/-- Witness for C4 (amended) at concrete inputs: the nil list skips
serialization, the empty non-nil list does not, and Create yields a
non-nil list. -/
theorem c4_nil_stops_empty_does_not_witness :
    (printLog settingsVar loggerNil jsonMarshal fmtT 0 "x" INFO).serialized = none ∧
    (printLog settingsVar loggerEmpty jsonMarshal fmtT 0 "x" INFO).serialized
      = some (jsonMarshal (buildMessage settingsVar loggerEmpty 0 "x" INFO)) ∧
    (Create (fun _ => pubOK) (fun _ => pubOK) "h" envFlagsOff).publishers.isSome
      = true := by
  have h1 := c4_nil_stops_empty_does_not settingsVar loggerNil jsonMarshal fmtT 0 "x" INFO
  have h2 := c4_nil_stops_empty_does_not settingsVar loggerEmpty jsonMarshal fmtT 0 "x" INFO
  exact ⟨(h1.1 rfl).1, (h2.2.1 rfl).1, h2.2.2 (fun _ => pubOK) (fun _ => pubOK) "h" envFlagsOff⟩

end Log

namespace Log

lemma console_out_shape (r : String) :
    1 ≤ trailingNewlines (if hasSuffixNL r then r else r ++ "\n") ∧
    (trailingNewlines r ≤ 1 →
      trailingNewlines (if hasSuffixNL r then r else r ++ "\n") = 1) := by
  cases hs : hasSuffixNL r with
  | true =>
    rw [if_pos rfl]
    have h1 := trailingNewlines_pos r hs
    exact ⟨h1, fun hle => le_antisymm hle h1⟩
  | false =>
    rw [if_neg (by simp)]
    rw [trailingNewlines_append_newline, trailingNewlines_eq_zero r hs]
    exact ⟨by omega, fun _ => rfl⟩

/-- C5 (amended): a dispatch that passes the console gate writes the
rendered text unchanged when it already ends in a newline (so it keeps
however many trailing newlines the text had) and appends exactly one
newline otherwise; the written line always ends in at least one newline,
and in exactly one whenever the rendered text ends in at most one. -/
theorem c5_console_trailing_newline (gs : Settings) (l : Logger)
    (marshal : Message → Except String String) (fmtTime : Int → String)
    (nowNanos : Int) (text : String) (level : Level) (out : String)
    (h : (printLog gs l marshal fmtTime nowNanos text level).console = some out) :
    out = (if hasSuffixNL (Message.String (buildMessage gs l nowNanos text level) fmtTime)
           then Message.String (buildMessage gs l nowNanos text level) fmtTime
           else Message.String (buildMessage gs l nowNanos text level) fmtTime ++ "\n") ∧
    1 ≤ trailingNewlines out ∧
    (trailingNewlines (Message.String (buildMessage gs l nowNanos text level) fmtTime) ≤ 1 →
      trailingNewlines out = 1) := by
  have hc : (printLog gs l marshal fmtTime nowNanos text level).console
      = (if gs.MinLogLevel.Severity ≤ level.Severity ∧ gs.LogToConsole = true then
           some (if hasSuffixNL (Message.String (buildMessage gs l nowNanos text level) fmtTime)
                 then Message.String (buildMessage gs l nowNanos text level) fmtTime
                 else Message.String (buildMessage gs l nowNanos text level) fmtTime ++ "\n")
         else none) := by
    cases hp : l.publishers <;> simp [printLog, hp]
  rw [hc] at h
  by_cases hg : gs.MinLogLevel.Severity ≤ level.Severity ∧ gs.LogToConsole = true
  · rw [if_pos hg] at h
    have hout := Option.some.inj h
    subst hout
    exact ⟨rfl,
      (console_out_shape (Message.String (buildMessage gs l nowNanos text level) fmtTime)).1,
      (console_out_shape (Message.String (buildMessage gs l nowNanos text level) fmtTime)).2⟩
  · rw [if_neg hg] at h
    exact absurd h (by simp)

/-- Counterexample to C5 as stated: a message text ending in two newlines
passes the console gate and is written with two trailing newlines, not
exactly one. -/
theorem c5_counterexample :
    (printLog settingsVar loggerNil jsonMarshal fmtT 0 "a\n\n" INFO).console
      = some "[Info] T  - a\n\n" ∧
    trailingNewlines "[Info] T  - a\n\n" = 2 :=
  ⟨rfl, by decide⟩

/-- Witness for C5 (amended) at a concrete input: a text with no trailing
newline is written with exactly one. -/
theorem c5_console_trailing_newline_witness :
    trailingNewlines "[Info] T  - b\n" = 1 := by
  have h := c5_console_trailing_newline settingsVar loggerNil jsonMarshal fmtT 0
    "b" INFO "[Info] T  - b\n" rfl
  exact h.2.2 (by decide)

/-- The settings source of the C1 run: a service name, a minimum level of
Error and console off are configured, and every publisher flag is off. -/
def envC1 : ISettings :=
  { Get := fun key fb =>
      if key == "LOG_SERVICE_NAME" then "svc"
      else if key == "LOG_LEVEL" then "Error"
      else fb
    GetBool := fun _ _ => false }

/-- The logger Create returns for envC1. -/
def loggerC1 : Logger := Create (fun _ => pubOK) (fun _ => pubOK) "h1" envC1

/-- C1: at the concrete input envC1 the logger stores the construction-time
settings (service svc, minimum level Error, console off), yet a Debug
dispatch builds its Message from the package-level settings variable: the
emitted serviceName is empty instead of svc, and the console gate passes
(the variable holds minimum level Debug and console on) although the
stored settings would reject it. -/
theorem c1_stored_settings_ignored :
    loggerC1.settings
      = { ServiceName := "svc", MinLogLevel := ERROR, LogToConsole := false } ∧
    (buildMessage settingsVar loggerC1 0 "tick" DEBUG).ServiceName = "" ∧
    (printLog settingsVar loggerC1 jsonMarshal fmtT 0 "tick" DEBUG).console.isSome
      = true :=
  ⟨rfl, rfl, rfl⟩

end Log
